import Mathlib

/-!
Shallow embedding of the WAVECAR reader `vaspwfc.py` together with proofs
about its header decoding, record location, G-vector enumeration,
gamma-mode real-space reconstruction and transition-dipole-moment
computation.

Conventions of the embedding:
* machine floating-point values are modelled as real numbers (`ℝ`),
  complex coefficients as `ℂ`;
* Python 2 integers are `ℤ` (loop counters over `range` are `ℕ`);
  Python 2 `/` on nonnegative integers is `Nat` division, numpy `%` on
  integers with a positive modulus agrees with `Int.emod`;
* a Python `raise` or failed `assert` is an `Except.error` carrying the
  message of the source line;
* numpy arrays indexed by integers become Lean functions or lists.
-/

namespace Vaspwfc

/-- Modelled from the spec: `vasp_constant.py` is imported by the source but
is not among the source files; the spec names a Bohr-radius-to-Angstrom
factor (`0.529...`). -/
noncomputable def AUTOA : ℝ := 0.529177249

/-- Modelled from the spec: the Rydberg-to-eV conversion factor (`13.6...`)
from the missing `vasp_constant.py`. -/
noncomputable def RYTOEV : ℝ := 13.605826

/-- Modelled from the spec: `TPI` is `2·π` from the missing
`vasp_constant.py`. -/
noncomputable def TPI : ℝ := 2 * Real.pi

/-- Modelled from the spec: `HSQDTM` is `ħ²/(2·mₑ)` in the file's unit
conventions, `RYTOEV·AUTOA²`, from the missing `vasp_constant.py`. -/
noncomputable def HSQDTM : ℝ := RYTOEV * AUTOA * AUTOA

/-- Modelled from the spec: atomic-unit dipole moment to Debye factor
(`momentToDebyeConstant`) from the missing `vasp_constant.py`. -/
noncomputable def AUTDEBYE : ℝ := 2.541746

/-- Real 3-vectors written as nested pairs. -/
abbrev V3 := ℝ × ℝ × ℝ

/-- Real 3×3 matrices, stored as the triple of their rows. -/
abbrev Mat3 := V3 × V3 × V3

/-- Complex 3-vectors. -/
abbrev Cvec3 := ℂ × ℂ × ℂ

noncomputable def vadd (a b : V3) : V3 := (a.1 + b.1, a.2.1 + b.2.1, a.2.2 + b.2.2)

noncomputable def vsub (a b : V3) : V3 := (a.1 - b.1, a.2.1 - b.2.1, a.2.2 - b.2.2)

noncomputable def vsmul (c : ℝ) (v : V3) : V3 := (c * v.1, c * v.2.1, c * v.2.2)

/-- Row vector times 3×3 matrix, numpy `np.dot(v, M)` for a length-3 `v`. -/
noncomputable def rowMul (v : V3) (M : Mat3) : V3 :=
  vadd (vsmul v.1 M.1) (vadd (vsmul v.2.1 M.2.1) (vsmul v.2.2 M.2.2))

noncomputable def matScale (c : ℝ) (M : Mat3) : Mat3 :=
  (vsmul c M.1, vsmul c M.2.1, vsmul c M.2.2)

noncomputable def normSq (v : V3) : ℝ := v.1 ^ 2 + v.2.1 ^ 2 + v.2.2 ^ 2

/-- Euclidean norm of a length-3 row, `np.linalg.norm`. -/
noncomputable def vnorm (v : V3) : ℝ := Real.sqrt (normSq v)

noncomputable def v3ofInt (g : ℤ × ℤ × ℤ) : V3 := ((g.1 : ℝ), (g.2.1 : ℝ), (g.2.2 : ℝ))

/-- Working precision selected by `setWFPrec`: `np.complex64` or
`np.complex128`. -/
inductive WFPrec where
  | complex64
  | complex128
deriving DecidableEq

/-- Embedding of `vaspwfc.setWFPrec` (source lines 91-107): decode the
precision tag `rtag` read from record 1. -/
def setWFPrec (rtag : ℤ) : Except String WFPrec :=
  if rtag = 45200 then .ok .complex64
  else if rtag = 45210 then .ok .complex128
  else if rtag = 53300 then .error "VASP5 WAVECAR format, not implemented yet"
  else if rtag = 53310 then
    .error ("VASP5 WAVECAR format with double precision "
            ++ "coefficients, not implemented yet")
  else .error ("Invalid TAG values: " ++ toString rtag)

/-- Embedding of `vaspwfc.checkIndex` (source lines 301-307): the three
1-based range asserts, in source order. -/
def checkIndex (nspin nkpts nbands ispin ikpt iband : ℤ) : Except String Unit :=
  if ¬(1 ≤ ispin ∧ ispin ≤ nspin) then .error "Invalid spin index!"
  else if ¬(1 ≤ ikpt ∧ ikpt ≤ nkpts) then .error "Invalid kpoint index!"
  else if ¬(1 ≤ iband ∧ iband ≤ nbands) then .error "Invalid band index!"
  else .ok ()

/-- Embedding of `vaspwfc.whereRec` (source lines 289-299): record index of
the (ispin, ikpt, iband) coefficient record.  The source first calls
`self.checkIndex(ispin, ikpt, iband)`. -/
def whereRec (nspin nkpts nbands ispin ikpt iband : ℤ) : Except String ℤ :=
  match checkIndex nspin nkpts nbands ispin ikpt iband with
  | .error e => .error e
  | .ok _ => .ok (2 + (ispin - 1) * nkpts * (nbands + 1)
                    + (ikpt - 1) * (nbands + 1) + iband)

/-- Parsed state of a `vaspwfc` object after `__init__`: the header fields
and band tables the later methods read, with the coefficient records of the
underlying file abstracted as the function `fileCoeff` from a byte position
and a count to the complex values `np.fromfile` yields there. -/
structure WaveState where
  recl : ℤ
  nspin : ℤ
  nkpts : ℤ
  nbands : ℤ
  encut : ℝ
  Bcell : Mat3
  ngrid : ℕ × ℕ × ℕ
  nplws : ℕ → ℤ
  kvecs : ℕ → V3
  bands : ℕ → ℕ → ℕ → ℝ
  fileCoeff : ℤ → ℕ → List ℂ

/-- Centered FFT frequency of index `i` on an axis with `n` points:
`ii if ii < n / 2 + 1 else ii - n` with Python 2 integer division
(source lines 149-154). -/
def freq (n i : ℕ) : ℤ := if i < n / 2 + 1 then (i : ℤ) else (i : ℤ) - n

/-- Full candidate grid of `gvectors` in the on-disk nested order:
`kk` outermost, then `jj`, then `ii` fastest (source lines 168-171). -/
def kgridFull (ngrid : ℕ × ℕ × ℕ) : List (ℤ × ℤ × ℤ) :=
  (List.range ngrid.2.2).flatMap fun kk =>
    (List.range ngrid.2.1).flatMap fun jj =>
      (List.range ngrid.1).map fun ii =>
        (freq ngrid.1 ii, freq ngrid.2.1 jj, freq ngrid.2.2 kk)

/-- Gamma-mode candidate grid of `gvectors`: the same enumeration restricted
to the half-space `fz>0 ∨ (fz=0 ∧ fy>0) ∨ (fz=0 ∧ fy=0 ∧ fx≥0)`
(source lines 158-166). -/
def kgridGamma (ngrid : ℕ × ℕ × ℕ) : List (ℤ × ℤ × ℤ) :=
  (List.range ngrid.2.2).flatMap fun kk =>
    (List.range ngrid.2.1).flatMap fun jj =>
      (List.range ngrid.1).filterMap fun ii =>
        let fx := freq ngrid.1 ii
        let fy := freq ngrid.2.1 jj
        let fz := freq ngrid.2.2 kk
        if fz > 0 ∨ (fz = 0 ∧ fy > 0) ∨ (fz = 0 ∧ fy = 0 ∧ fx ≥ 0) then
          some (fx, fy, fz)
        else none

/-- Kinetic energy of one candidate G-vector,
`HSQDTM * np.linalg.norm(np.dot(g + kvec, TPI*Bcell))**2`
(source lines 175-177). -/
noncomputable def KENERGY (Bcell : Mat3) (kvec : V3) (g : ℤ × ℤ × ℤ) : ℝ :=
  HSQDTM * vnorm (rowMul (vadd (v3ofInt g) kvec) (matScale TPI Bcell)) ^ 2

open Classical in
/-- Keep the candidates whose kinetic energy is strictly below the cutoff,
`kgrid[np.where(KENERGY < self._encut)[0]]` (source line 179). -/
noncomputable def filterKE (Bcell : Mat3) (kvec : V3) (encut : ℝ) :
    List (ℤ × ℤ × ℤ) → List (ℤ × ℤ × ℤ)
  | [] => []
  | g :: gs =>
      if KENERGY Bcell kvec g < encut then g :: filterKE Bcell kvec encut gs
      else filterKE Bcell kvec encut gs

def gridProd (ngrid : ℕ × ℕ × ℕ) : ℕ := ngrid.1 * ngrid.2.1 * ngrid.2.2

/-- Message of the plane-wave count consistency assert of `gvectors`
(source lines 181-182), with its three formatted numbers. -/
def pwMsg (a : ℕ) (b : ℤ) (c : ℕ) : String :=
  "No. of planewaves not consistent! " ++ toString a ++ " " ++ toString b
    ++ " " ++ toString c

/-- Embedding of `vaspwfc.gvectors` (source lines 139-183). -/
noncomputable def gvectors (st : WaveState) (ikpt : ℤ) (gamma : Bool) :
    Except String (List (ℤ × ℤ × ℤ)) :=
  if ¬(1 ≤ ikpt ∧ ikpt ≤ st.nkpts) then .error "Invalid kpoint index!"
  else
    let kvec := st.kvecs (ikpt - 1).toNat
    let kgrid := if gamma then kgridGamma st.ngrid else kgridFull st.ngrid
    let Gvec := filterKE st.Bcell kvec st.encut kgrid
    if (Gvec.length : ℤ) = st.nplws (ikpt - 1).toNat then .ok Gvec
    else .error (pwMsg Gvec.length (st.nplws (ikpt - 1).toNat) (gridProd st.ngrid))

/-- Euclidean norm of a complex coefficient vector, `np.linalg.norm(cg)`. -/
noncomputable def l2norm (cg : List ℂ) : ℝ :=
  Real.sqrt ((cg.map fun c => Complex.normSq c).sum)

/-- Embedding of `vaspwfc.readBandCoeff` (source lines 271-287): seek to the
state's record, read `nplws[ikpt-1]` coefficients, upcast to double complex
(the identity here) and optionally L2-normalize. -/
noncomputable def readBandCoeff (st : WaveState) (ispin ikpt iband : ℤ)
    (norm : Bool) : Except String (List ℂ) :=
  match checkIndex st.nspin st.nkpts st.nbands ispin ikpt iband with
  | .error e => .error e
  | .ok _ =>
    match whereRec st.nspin st.nkpts st.nbands ispin ikpt iband with
    | .error e => .error e
    | .ok irec =>
      let nplw := (st.nplws (ikpt - 1).toNat).toNat
      let cg := st.fileCoeff (irec * st.recl) nplw
      .ok (if norm then cg.map (fun c => c / (l2norm cg : ℂ)) else cg)

/-- Consecutive row differences, `np.diff(·, axis=0)`. -/
noncomputable def vdiffs : List V3 → List V3
  | a :: b :: rest => vsub b a :: vdiffs (b :: rest)
  | _ => []

/-- Running partial sums starting from `acc`, so `cumsumFrom 0` is
`np.cumsum`. -/
noncomputable def cumsumFrom (acc : ℝ) : List ℝ → List ℝ
  | [] => []
  | x :: xs => (acc + x) :: cumsumFrom (acc + x) xs

/-- Embedding of the cumulative k-path computation of `vaspwfc.readWFBand`
(source lines 131-136): for more than one k-point,
`np.concatenate(([0,], np.cumsum(np.linalg.norm(np.dot(np.diff(kvecs), Bcell), axis=1))))`,
otherwise `None`. -/
noncomputable def kpathOf (nkpts : ℤ) (kvecs : List V3) (Bcell : Mat3) :
    Option (List ℝ) :=
  if 1 < nkpts then
    some (0 :: cumsumFrom 0 ((vdiffs kvecs).map fun d => vnorm (rowMul d Bcell)))
  else none

/-- Stated from the claim's wording, for comparison with `kpathOf`: the same
cumulative path but with the k-vector differences additionally scaled by
`2π` (transformed through `TPI·Bcell`). -/
noncomputable def kpathClaim (nkpts : ℤ) (kvecs : List V3) (Bcell : Mat3) :
    Option (List ℝ) :=
  if 1 < nkpts then
    some (0 :: cumsumFrom 0
      ((vdiffs kvecs).map fun d => vnorm (rowMul d (matScale TPI Bcell))))
  else none

/-- One iteration of the gamma-mode z=0 reconstruction loop of `wfc_r`
(source lines 257-263), acting on the z=0 plane of the reciprocal buffer.
It mirrors the source exactly, including that the source computes BOTH
`fx` and `fy` from the first loop index `ii`
(`fy = ii if ii < ngrid[1] / 2 + 1 else ii - ngrid[1]`, sic).  A skipped
point leaves the plane unchanged; otherwise `phi_k[ii,jj,0]` is set to the
conjugate of `phi_k[-ii,-jj,0]`, with numpy's negative indexing written as
`(n - i) % n`. -/
noncomputable def gammaFillStep (n0 n1 : ℕ) (p : ℕ → ℕ → ℂ) (ij : ℕ × ℕ) :
    ℕ → ℕ → ℂ :=
  let fx : ℤ := if ij.1 < n0 / 2 + 1 then (ij.1 : ℤ) else (ij.1 : ℤ) - n0
  let fy : ℤ := if ij.1 < n1 / 2 + 1 then (ij.1 : ℤ) else (ij.1 : ℤ) - n1
  if fy > 0 ∨ (fy = 0 ∧ fx ≥ 0) then p
  else fun a b =>
    if a = ij.1 ∧ b = ij.2 then
      (starRingEnd ℂ) (p ((n0 - ij.1) % n0) ((n1 - ij.2) % n1))
    else p a b

/-- Loop order of the fill loop: `ii` outer over `range ngrid[0]`, `jj`
inner over `range ngrid[1]`. -/
def pairList (n0 n1 : ℕ) : List (ℕ × ℕ) :=
  (List.range n0).flatMap fun ii => (List.range n1).map fun jj => (ii, jj)

/-- The whole gamma-mode z=0 reconstruction loop of `wfc_r`
(source lines 257-263) on the z=0 plane, executed in source order. -/
noncomputable def gammaFillZ (n0 n1 : ℕ) (p : ℕ → ℕ → ℂ) : ℕ → ℕ → ℂ :=
  (pairList n0 n1).foldl (gammaFillStep n0 n1) p

/-- Lift of `gammaFillZ` to the 3D buffer: the loop only writes entries
with third index 0. -/
noncomputable def gammaFill3 (n0 n1 : ℕ) (phi : ℕ → ℕ → ℕ → ℂ) :
    ℕ → ℕ → ℕ → ℂ :=
  fun i j k => if k = 0 then gammaFillZ n0 n1 (fun a b => phi a b 0) i j
               else phi i j k

/-- First scaling statement of the gamma branch of `wfc_r`
(source line 264): `phi_k /= np.sqrt(2.)` on the whole buffer. -/
noncomputable def gammaDivSqrt2 (phi : ℕ → ℕ → ℕ → ℂ) : ℕ → ℕ → ℕ → ℂ :=
  fun i j k => phi i j k / ((Real.sqrt 2 : ℝ) : ℂ)

/-- Both scaling statements of the gamma branch of `wfc_r`
(source lines 264-265): `phi_k /= np.sqrt(2.)` followed by
`phi_k[0,0,0] *= np.sqrt(2.)`. -/
noncomputable def gammaScale (phi : ℕ → ℕ → ℕ → ℂ) : ℕ → ℕ → ℕ → ℂ :=
  fun i j k =>
    if i = 0 ∧ j = 0 ∧ k = 0 then gammaDivSqrt2 phi 0 0 0 * ((Real.sqrt 2 : ℝ) : ℂ)
    else gammaDivSqrt2 phi i j k

/-- Message of the minimum-grid assert of `wfc_r` (source lines 241-243). -/
def minGridMsg (n : ℕ × ℕ × ℕ) : String :=
  "Minium FT grid size: (" ++ toString n.1 ++ ", " ++ toString n.2.1 ++ ", "
    ++ toString n.2.2 ++ ")"

/-- Reduction of the G-vector array modulo the grid, the in-place
`gvec %= ngrid[np.newaxis,:]` of `wfc_r` (source line 252).  numpy `%` with
a positive modulus is `Int.emod`.  In the source this mutates the array
object the caller passed as `gvec`; here the reduced array is the value the
caller's array holds after the call.  `reduceTriple` is the row-wise
operation. -/
def reduceTriple (ngrid : ℕ × ℕ × ℕ) (g : ℤ × ℤ × ℤ) : ℤ × ℤ × ℤ :=
  (g.1 % (ngrid.1 : ℤ), g.2.1 % (ngrid.2.1 : ℤ), g.2.2 % (ngrid.2.2 : ℤ))

/-- The whole in-place `gvec %= ngrid` of source line 252, row by row. -/
def gvecReduce (ngrid : ℕ × ℕ × ℕ) (gvec : List (ℤ × ℤ × ℤ)) :
    List (ℤ × ℤ × ℤ) :=
  gvec.map (reduceTriple ngrid)

/-- Placement of the 1D coefficients onto the 3D reciprocal grid,
`phi_k[gvec[:,0], gvec[:,1], gvec[:,2]] = cg` (source line 253); with
repeated indices the later assignment wins. -/
noncomputable def placeCoeffs (gvec : List (ℤ × ℤ × ℤ)) (cg : List ℂ) :
    ℕ → ℕ → ℕ → ℂ :=
  (List.zip gvec cg).foldl
    (fun p gc => fun a b c =>
      if (a : ℤ) = gc.1.1 ∧ (b : ℤ) = gc.1.2.1 ∧ (c : ℤ) = gc.1.2.2 then gc.2
      else p a b c)
    (fun _ _ _ => 0)

/-- Embedding of `vaspwfc.wfc_r` up to the final library Fourier transform
(source lines 224-266): index check, target grid resolution and its
minimum-grid assert, G-vector resolution, the in-place reduction of `gvec`
modulo the grid, coefficient placement, and in gamma mode the z=0
reconstruction loop and the `1/√2` / `√2` rescaling.  The final
`np.fft.irfftn` / `ifftn` call is the out-of-scope library transform; the
function returns the buffer handed to it, paired with the reduced G-vector
array, i.e. the value left in the caller-supplied `gvec` argument. -/
noncomputable def wfc_r (st : WaveState) (ispin ikpt iband : ℤ)
    (gvecArg : Option (List (ℤ × ℤ × ℤ))) (ngridArg : Option (ℕ × ℕ × ℕ))
    (norm gamma : Bool) :
    Except String ((ℕ → ℕ → ℕ → ℂ) × List (ℤ × ℤ × ℤ)) :=
  match checkIndex st.nspin st.nkpts st.nbands ispin ikpt iband with
  | .error e => .error e
  | .ok _ =>
    let ngrid := ngridArg.getD st.ngrid
    if ngridArg.isSome ∧ ¬(st.ngrid.1 ≤ ngrid.1 ∧ st.ngrid.2.1 ≤ ngrid.2.1
        ∧ st.ngrid.2.2 ≤ ngrid.2.2) then
      .error (minGridMsg st.ngrid)
    else
      match (match gvecArg with
             | none => gvectors st ikpt gamma
             | some g => .ok g : Except String (List (ℤ × ℤ × ℤ))) with
      | .error e => .error e
      | .ok gvec0 =>
        let gvec := gvecReduce ngrid gvec0
        match readBandCoeff st ispin ikpt iband norm with
        | .error e => .error e
        | .ok cg =>
          let phi_k := placeCoeffs gvec cg
          if gamma then
            .ok (gammaScale (gammaFill3 ngrid.1 ngrid.2.1 phi_k), gvec)
          else
            .ok (phi_k, gvec)

/-- Scalar times complex 3-vector. -/
noncomputable def cvsmul (c : ℂ) (v : Cvec3) : Cvec3 :=
  (c * v.1, c * v.2.1, c * v.2.2)

/-- Complex scalar times a real 3-vector, one row of
`tmp[:,np.newaxis] * gvec`. -/
noncomputable def cscale (c : ℂ) (v : V3) : Cvec3 :=
  (c * (v.1 : ℂ), c * (v.2.1 : ℂ), c * (v.2.2 : ℂ))

noncomputable def cvadd (a b : Cvec3) : Cvec3 :=
  (a.1 + b.1, a.2.1 + b.2.1, a.2.2 + b.2.2)

noncomputable def cvsub (a b : Cvec3) : Cvec3 :=
  (a.1 - b.1, a.2.1 - b.2.1, a.2.2 - b.2.2)

/-- Column-wise sum of a list of complex 3-vectors, `np.sum(·, axis=0)`. -/
noncomputable def sumv (l : List Cvec3) : Cvec3 := l.foldl cvadd (0, 0, 0)

/-- Embedding of `vaspwfc.TransitionDipoleMoment` (source lines 309-352).
The states are the index triples `(ispin, ikpt, iband)`; the source's
`len(ks_i) == 3` assert is guaranteed structurally by the triple type.
Returns `(dE, ovlap, tdm)`. -/
noncomputable def TransitionDipoleMoment (st : WaveState)
    (ks_i ks_j : ℤ × ℤ × ℤ) (norm gamma : Bool) :
    Except String (ℝ × ℂ × Cvec3) :=
  if ks_i.2.1 ≠ ks_j.2.1 then .error "k-point of the two states differ!"
  else
    match checkIndex st.nspin st.nkpts st.nbands ks_i.1 ks_i.2.1 ks_i.2.2 with
    | .error e => .error e
    | .ok _ =>
      match checkIndex st.nspin st.nkpts st.nbands ks_j.1 ks_j.2.1 ks_j.2.2 with
      | .error e => .error e
      | .ok _ =>
        match gvectors st ks_i.2.1 gamma with
        | .error e => .error e
        | .ok gv =>
          let gvec := gv.map fun g => rowMul (v3ofInt g) (matScale TPI st.Bcell)
          match readBandCoeff st ks_i.1 ks_i.2.1 ks_i.2.2 norm with
          | .error e => .error e
          | .ok phi_i =>
            match readBandCoeff st ks_j.1 ks_j.2.1 ks_j.2.2 norm with
            | .error e => .error e
            | .ok phi_j =>
              let dE := st.bands (ks_j.1 - 1).toNat (ks_j.2.1 - 1).toNat
                          (ks_j.2.2 - 1).toNat
                      - st.bands (ks_i.1 - 1).toNat (ks_i.2.1 - 1).toNat
                          (ks_i.2.2 - 1).toNat
              let tmp1 := List.zipWith (fun a b => (starRingEnd ℂ) a * b)
                            phi_i phi_j
              let ovlap := tmp1.sum
              let tdm1 :=
                if gamma then
                  let tmp2 := List.zipWith (fun a b => a * (starRingEnd ℂ) b)
                                phi_i phi_j
                  cvsmul (1 / 2 : ℂ)
                    (cvsub (sumv (List.zipWith cscale tmp1 gvec))
                           (sumv (List.zipWith cscale tmp2 gvec)))
                else sumv (List.zipWith cscale tmp1 gvec)
              let tdm := cvsmul
                (Complex.I / (((dE : ℝ) : ℂ) / (2 * ((RYTOEV : ℝ) : ℂ)))
                  * ((AUTOA : ℝ) : ℂ) * ((AUTDEBYE : ℝ) : ℂ)) tdm1
              .ok (dE, ovlap, tdm)

/-- Operations `__init__` performs on the file handle: the `open` of line
48, the `seek`s, the `np.fromfile` reads, and (never emitted by the source)
a `close` of the handle. -/
inductive FileOp where
  | fopen
  | seek (pos : ℤ)
  | readFloats (count : ℕ)
  | close
deriving DecidableEq

/-- Abstraction of the on-disk file for the constructor trace: `floatsAt p c`
is the list of 8-byte floats `np.fromfile(count=c)` yields at byte
position `p`. -/
structure FileModel where
  floatsAt : ℤ → ℕ → List ℝ

/-- Python `int()` of a float: truncation toward zero. -/
noncomputable def pyInt (x : ℝ) : ℤ := if 0 ≤ x then ⌊x⌋ else ⌈x⌉

/-- Header fields of record 1 and record 2 that drive the remaining reads of
the constructor.  The further derived header values (cell volume,
reciprocal lattice, minimum grid) are computed from the same 12 floats
without touching the file and are carried by `WaveState` elsewhere. -/
structure HeaderInts where
  recl : ℤ
  nspin : ℤ
  nkpts : ℤ
  nbands : ℤ

/-- File-handle trace of `readWFHeader` (source lines 57-89): seek to 0,
read 3 floats, decode the precision tag (raising as in `setWFPrec`), then
seek to `recl` and read 12 floats. -/
noncomputable def readWFHeaderTrace (f : FileModel) :
    List FileOp × Except String HeaderInts :=
  let v := f.floatsAt 0 3
  let recl := pyInt (v.getD 0 0)
  let rtag := pyInt (v.getD 2 0)
  let ops := [FileOp.seek 0, FileOp.readFloats 3]
  match setWFPrec rtag with
  | .error e => (ops, .error e)
  | .ok _ =>
    let w := f.floatsAt recl 12
    (ops ++ [FileOp.seek recl, FileOp.readFloats 12],
     .ok ⟨recl, pyInt (v.getD 1 0), pyInt (w.getD 0 0), pyInt (w.getD 1 0)⟩)

/-- File-handle trace of the double loop of `readWFBand`
(source lines 119-129), iterating over the `(ii, jj)` pairs: per pair, seek
to `(whereRec(ii+1, jj+1, 1) - 1) * recl` and read `4 + 3*nbands` floats.
An error raised by `whereRec`'s index check stops the loop. -/
noncomputable def bandTraceAux (h : HeaderInts) :
    List (ℕ × ℕ) → List FileOp × Except String Unit
  | [] => ([], .ok ())
  | (ii, jj) :: rest =>
    match whereRec h.nspin h.nkpts h.nbands ((ii : ℤ) + 1) ((jj : ℤ) + 1) 1 with
    | .error e => ([], .error e)
    | .ok r =>
      let here := [FileOp.seek ((r - 1) * h.recl),
                   FileOp.readFloats (4 + 3 * h.nbands).toNat]
      let (restOps, res) := bandTraceAux h rest
      (here ++ restOps, res)

/-- File-handle trace of `readWFBand` (source lines 109-137). -/
noncomputable def readWFBandTrace (h : HeaderInts) :
    List FileOp × Except String Unit :=
  bandTraceAux h (pairList h.nspin.toNat h.nkpts.toNat)

/-- File-handle trace of `vaspwfc.__init__` (source lines 41-55): open the
file, then `readWFHeader`, then `readWFBand`.  An exception raised while
parsing propagates out of the constructor; the source contains no
`close` call on any path. -/
noncomputable def initTrace (f : FileModel) : List FileOp × Except String Unit :=
  let hr := readWFHeaderTrace f
  match hr.2 with
  | .error e => (FileOp.fopen :: hr.1, .error e)
  | .ok h =>
    let br := readWFBandTrace h
    (FileOp.fopen :: (hr.1 ++ br.1), br.2)

/-- Identity reciprocal lattice used by the concrete examples. -/
noncomputable def idMat : Mat3 := ((1, 0, 0), (0, 1, 0), (0, 0, 1))

/-- Concrete parsed state used by the examples: one spin, one k-point, two
bands, unit cutoff, identity reciprocal lattice, minimal 1x1x1 grid, one
plane wave per k-point; the band-1 coefficient record holds `[1]` and the
band-2 record holds `[i]`; band energies are 0 and 1. -/
noncomputable def sampleW : WaveState where
  recl := 100
  nspin := 1
  nkpts := 1
  nbands := 2
  encut := 1
  Bcell := idMat
  ngrid := (1, 1, 1)
  nplws := fun _ => 1
  kvecs := fun _ => (0, 0, 0)
  bands := fun _ _ b => if b = 0 then 0 else 1
  fileCoeff := fun pos _ =>
    if pos = 300 then [1] else if pos = 400 then [Complex.I] else []

lemma KE_zero_sample : KENERGY idMat 0 0 = 0 := by
  simp [KENERGY, idMat, vnorm, normSq, rowMul, vadd, vsmul, v3ofInt, matScale,
        Prod.fst_zero, Prod.snd_zero]

lemma kgridFull_one : kgridFull (1, 1, 1) = [(0, 0, 0)] := by decide

lemma gvectors_sampleW : gvectors sampleW 1 false = .ok [(0, 0, 0)] := by
  have hKE : KENERGY idMat 0 0 < 1 := by rw [KE_zero_sample]; norm_num
  unfold gvectors
  norm_num [sampleW, kgridFull_one, filterKE, freq, Prod.mk_zero_zero, if_pos hKE]

lemma readBandCoeff_sample1 : readBandCoeff sampleW 1 1 1 false = .ok [1] := by
  unfold readBandCoeff whereRec checkIndex
  norm_num [sampleW]

lemma readBandCoeff_sample2 :
    readBandCoeff sampleW 1 1 2 false = .ok [Complex.I] := by
  unfold readBandCoeff whereRec checkIndex
  norm_num [sampleW]

lemma checkIndex_sample111 :
    checkIndex sampleW.nspin sampleW.nkpts sampleW.nbands 1 1 1 = .ok () := by
  norm_num [checkIndex, sampleW]

lemma checkIndex_sample112 :
    checkIndex sampleW.nspin sampleW.nkpts sampleW.nbands 1 1 2 = .ok () := by
  norm_num [checkIndex, sampleW]

lemma TDM_sample_degenerate :
    TransitionDipoleMoment sampleW (1, 1, 1) (1, 1, 1) false false
      = .ok (0, 1, (0, 0, 0)) := by
  unfold TransitionDipoleMoment
  simp only [checkIndex_sample111, gvectors_sampleW, readBandCoeff_sample1]
  norm_num [sampleW, rowMul, v3ofInt, matScale, vadd, vsmul, idMat, cscale,
            sumv, cvadd, cvsmul, Prod.ext_iff]

lemma TDM_sample_offdiag :
    TransitionDipoleMoment sampleW (1, 1, 1) (1, 1, 2) false false
      = .ok (1, Complex.I, (0, 0, 0)) := by
  unfold TransitionDipoleMoment
  simp only [checkIndex_sample111, checkIndex_sample112, gvectors_sampleW,
             readBandCoeff_sample1, readBandCoeff_sample2]
  norm_num [sampleW, rowMul, v3ofInt, matScale, vadd, vsmul, idMat, cscale,
            sumv, cvadd, cvsmul, Prod.ext_iff]

lemma TDM_sample_kpt_mismatch :
    TransitionDipoleMoment sampleW (1, 1, 1) (1, 2, 1) false false
      = .error "k-point of the two states differ!" := by
  unfold TransitionDipoleMoment
  norm_num

/-- Plane used as the z=0 buffer content in the gamma-fill example. -/
noncomputable def planeSample : ℕ → ℕ → ℂ := fun i j => ((3 * i + j : ℕ) : ℂ)

lemma gammaFillZ_sample_02 : gammaFillZ 3 3 planeSample 0 2 = 2 := by
  norm_num [gammaFillZ, gammaFillStep, pairList, planeSample, List.range_succ]

lemma gammaFillZ_sample_21 : gammaFillZ 3 3 planeSample 2 1 = 5 := by
  norm_num [gammaFillZ, gammaFillStep, pairList, planeSample, List.range_succ,
            Complex.ext_iff]

/-- Constant-one reciprocal buffer for the scaling example. -/
noncomputable def constOne3 : ℕ → ℕ → ℕ → ℂ := fun _ _ _ => 1

lemma gammaScale_dc_one : gammaScale constOne3 0 0 0 = 1 := by
  have h2 : ((Real.sqrt 2 : ℝ) : ℂ) ≠ 0 := by
    exact_mod_cast Complex.ofReal_ne_zero.mpr
      (ne_of_gt (Real.sqrt_pos.mpr (by norm_num)))
  simp [gammaScale, gammaDivSqrt2, constOne3, div_mul_cancel₀, h2]

lemma sqrt2_complex_ne_one : ((Real.sqrt 2 : ℝ) : ℂ) ≠ 1 := by
  intro h
  have h1 : Real.sqrt 2 = 1 := by exact_mod_cast h
  have := Real.sqrt_eq_one.mp h1
  norm_num at this

/-- Two k-points one reciprocal unit apart along x, for the k-path example. -/
noncomputable def kvPair : List V3 := [(0, 0, 0), (1, 0, 0)]

lemma kpathOf_pair : kpathOf 2 kvPair idMat = some [0, 1] := by
  norm_num [kpathOf, kvPair, vdiffs, vsub, cumsumFrom, rowMul, vadd, vsmul,
            idMat, vnorm, normSq]

lemma kpathClaim_pair : kpathClaim 2 kvPair idMat = some [0, TPI] := by
  have hTPI : (0:ℝ) ≤ TPI := by
    unfold TPI; positivity
  norm_num [kpathClaim, kvPair, vdiffs, vsub, cumsumFrom, rowMul, vadd, vsmul,
            idMat, matScale, vnorm, normSq, Real.sqrt_sq hTPI]

lemma one_lt_TPI : (1:ℝ) < TPI := by
  unfold TPI
  nlinarith [Real.pi_gt_three]

lemma cumsum_cons_getD (xs : List ℝ) :
    ∀ acc i, i < xs.length →
      (acc :: cumsumFrom acc xs).getD (i + 1) 0
        = (acc :: cumsumFrom acc xs).getD i 0 + xs.getD i 0 := by
  induction xs with
  | nil => intro acc i h; simp at h
  | cons x xs ih =>
      intro acc i h
      match i with
      | 0 => simp [cumsumFrom]
      | i + 1 =>
          have h2 : i < xs.length := by simpa using h
          simpa [cumsumFrom] using ih (acc + x) i h2

lemma cumsumFrom_length (xs : List ℝ) :
    ∀ acc, (cumsumFrom acc xs).length = xs.length := by
  induction xs with
  | nil => intro acc; simp [cumsumFrom]
  | cons x xs ih => intro acc; simp [cumsumFrom, ih]

lemma vdiffs_length (kv : List V3) : (vdiffs kv).length = kv.length - 1 := by
  induction kv with
  | nil => simp [vdiffs]
  | cons a kv ih =>
      match kv with
      | [] => simp [vdiffs]
      | b :: rest => simp [vdiffs] at ih ⊢; omega

lemma vdiffs_getD (kv : List V3) :
    ∀ i, i + 1 < kv.length →
      (vdiffs kv).getD i 0 = vsub (kv.getD (i + 1) 0) (kv.getD i 0) := by
  induction kv with
  | nil => intro i h; simp at h
  | cons a kv ih =>
      intro i h
      match kv with
      | [] => simp at h
      | b :: rest =>
          match i with
          | 0 => simp [vdiffs]
          | i + 1 =>
              have h2 : i + 1 < (b :: rest).length := by simpa using h
              simpa [vdiffs] using ih i h2

lemma pyInt_natCast (n : ℕ) : pyInt ((n : ℕ) : ℝ) = n := by
  simp [pyInt, Int.floor_natCast]

lemma pyInt_53300 : pyInt (53300 : ℝ) = 53300 := by
  have h : ((53300 : ℝ)) = (((53300 : ℕ) : ℕ) : ℝ) := by norm_num
  rw [h, pyInt_natCast]; rfl

/-- WAVECAR file whose record 1 carries the unsupported precision tag
`53300`. -/
noncomputable def badTagFile : FileModel :=
  ⟨fun pos _ => if pos = 0 then [((100:ℕ):ℝ), ((1:ℕ):ℝ), ((53300:ℕ):ℝ)] else []⟩

lemma initTrace_badTagFile :
    initTrace badTagFile
      = ([FileOp.fopen, FileOp.seek 0, FileOp.readFloats 3],
         .error "VASP5 WAVECAR format, not implemented yet") := by
  norm_num [initTrace, readWFHeaderTrace, badTagFile, pyInt_53300, setWFPrec]

lemma readWFHeaderTrace_no_close (f : FileModel) :
    FileOp.close ∉ (readWFHeaderTrace f).1 := by
  simp only [readWFHeaderTrace]
  split <;> simp

lemma bandTraceAux_no_close (h : HeaderInts) :
    ∀ ps : List (ℕ × ℕ), FileOp.close ∉ (bandTraceAux h ps).1 := by
  intro ps
  induction ps with
  | nil => simp [bandTraceAux]
  | cons p rest ih =>
      obtain ⟨ii, jj⟩ := p
      unfold bandTraceAux
      cases whereRec h.nspin h.nkpts h.nbands ((ii:ℤ)+1) ((jj:ℤ)+1) 1 <;>
        simp_all

lemma checkIndex_error_cases (a b c d e f : ℤ) (msg : String)
    (h : checkIndex a b c d e f = .error msg) :
    msg = "Invalid spin index!" ∨ msg = "Invalid kpoint index!" ∨
      msg = "Invalid band index!" := by
  unfold checkIndex at h
  split_ifs at h <;> simp_all

lemma whereRec_error_cases (a b c d e f : ℤ) (msg : String)
    (h : whereRec a b c d e f = .error msg) :
    msg = "Invalid spin index!" ∨ msg = "Invalid kpoint index!" ∨
      msg = "Invalid band index!" := by
  unfold whereRec at h
  cases hc : checkIndex a b c d e f with
  | error e2 => rw [hc] at h
                cases h
                exact checkIndex_error_cases a b c d e f msg hc
  | ok u => rw [hc] at h; cases h

lemma readBandCoeff_error_cases (st : WaveState) (ispin ikpt iband : ℤ)
    (nr : Bool) (msg : String)
    (h : readBandCoeff st ispin ikpt iband nr = .error msg) :
    msg = "Invalid spin index!" ∨ msg = "Invalid kpoint index!" ∨
      msg = "Invalid band index!" := by
  unfold readBandCoeff at h
  cases hc : checkIndex st.nspin st.nkpts st.nbands ispin ikpt iband with
  | error e2 =>
      rw [hc] at h
      cases h
      exact checkIndex_error_cases _ _ _ _ _ _ msg hc
  | ok u =>
      rw [hc] at h
      cases hw : whereRec st.nspin st.nkpts st.nbands ispin ikpt iband with
      | error e3 =>
          rw [hw] at h
          cases h
          exact whereRec_error_cases _ _ _ _ _ _ msg hw
      | ok r => rw [hw] at h; cases h

lemma gvectors_error_cases (st : WaveState) (ikpt : ℤ) (gamma : Bool)
    (msg : String) (h : gvectors st ikpt gamma = .error msg) :
    msg = "Invalid kpoint index!" ∨ ∃ a b c, msg = pwMsg a b c := by
  simp only [gvectors] at h
  split_ifs at h
  all_goals first
    | (left; exact (Except.error.inj h).symm)
    | (right; exact ⟨_, _, _, (Except.error.inj h).symm⟩)

lemma setWFPrec_invalid_other (t : ℤ)
    (ht : t ∉ ([45200, 45210, 53300, 53310] : List ℤ)) :
    setWFPrec t = .error ("Invalid TAG values: " ++ toString t) := by
  simp only [List.mem_cons, List.not_mem_nil, or_false] at ht
  push_neg at ht
  obtain ⟨h1, h2, h3, h4⟩ := ht
  unfold setWFPrec
  rw [if_neg h1, if_neg h2, if_neg h3, if_neg h4]

lemma wfc_r_sample_eval :
    wfc_r sampleW 1 1 1 (some [(-1, 0, 0)]) none false false
      = .ok (placeCoeffs [(0, 0, 0)] [1], [(0, 0, 0)]) := by
  unfold wfc_r
  simp only [checkIndex_sample111, readBandCoeff_sample1]
  norm_num [sampleW, gvecReduce, reduceTriple]

/-- Claim C1, counterexample: at a concrete state with two identical KS
states at the same k-point (so `ΔE = 0`), `TransitionDipoleMoment` does not
fail with a "degenerate states" error: it returns a result whose energy
difference component is `0` (in the source, the final scaling divides by
this zero). -/
theorem tdm_degenerate_returns_ok :
    TransitionDipoleMoment sampleW (1, 1, 1) (1, 1, 1) false false
      = .ok (0, 1, (0, 0, 0)) := TDM_sample_degenerate

/-- Claim C1, amended: `TransitionDipoleMoment` performs no `ΔE = 0` check at
all; its only failure modes are the k-point mismatch assert, the three
index-range asserts and the plane-wave-count consistency assert — no
"degenerate states" error exists, and degenerate inputs produce a returned
value instead of an error. -/
theorem tdm_error_message_kinds (st : WaveState) (ks_i ks_j : ℤ × ℤ × ℤ)
    (nr gm : Bool) (e : String)
    (h : TransitionDipoleMoment st ks_i ks_j nr gm = .error e) :
    e = "k-point of the two states differ!" ∨ e = "Invalid spin index!" ∨
      e = "Invalid kpoint index!" ∨ e = "Invalid band index!" ∨
      ∃ a b c, e = pwMsg a b c := by
  unfold TransitionDipoleMoment at h
  by_cases h1 : ks_i.2.1 ≠ ks_j.2.1
  · rw [if_pos h1] at h; left; exact (Except.error.inj h).symm
  · rw [if_neg h1] at h
    cases hc1 : checkIndex st.nspin st.nkpts st.nbands ks_i.1 ks_i.2.1 ks_i.2.2 with
      | error e1 =>
          simp only [hc1] at h
          injection h with h2
          subst h2
          rcases checkIndex_error_cases _ _ _ _ _ _ _ hc1 with h3 | h3 | h3 <;> tauto
      | ok u1 =>
          simp only [hc1] at h
          cases hc2 : checkIndex st.nspin st.nkpts st.nbands ks_j.1 ks_j.2.1 ks_j.2.2 with
          | error e2 =>
              simp only [hc2] at h
              injection h with h2
              subst h2
              rcases checkIndex_error_cases _ _ _ _ _ _ _ hc2 with h3 | h3 | h3 <;> tauto
          | ok u2 =>
              simp only [hc2] at h
              cases hg : gvectors st ks_i.2.1 gm with
              | error e3 =>
                  simp only [hg] at h
                  injection h with h2
                  subst h2
                  rcases gvectors_error_cases _ _ _ _ hg with h3 | h3 <;> tauto
              | ok gv =>
                  simp only [hg] at h
                  cases hr1 : readBandCoeff st ks_i.1 ks_i.2.1 ks_i.2.2 nr with
                  | error e4 =>
                      simp only [hr1] at h
                      injection h with h2
                      subst h2
                      rcases readBandCoeff_error_cases _ _ _ _ _ _ hr1 with h3 | h3 | h3 <;> tauto
                  | ok p1 =>
                      simp only [hr1] at h
                      cases hr2 : readBandCoeff st ks_j.1 ks_j.2.1 ks_j.2.2 nr with
                      | error e5 =>
                          simp only [hr2] at h
                          injection h with h2
                          subst h2
                          rcases readBandCoeff_error_cases _ _ _ _ _ _ hr2 with h3 | h3 | h3 <;> tauto
                      | ok p2 =>
                          simp only [hr2] at h
                          simp at h

/-- Claim C1, witness for the amended theorem: a concrete erroring call (two
states at different k-points) whose message is one of the listed classes. -/
theorem tdm_error_message_kinds_witness :
    TransitionDipoleMoment sampleW (1, 1, 1) (1, 2, 1) false false
        = .error "k-point of the two states differ!" ∧
      ("k-point of the two states differ!" = "k-point of the two states differ!"
        ∨ "k-point of the two states differ!" = "Invalid spin index!"
        ∨ "k-point of the two states differ!" = "Invalid kpoint index!"
        ∨ "k-point of the two states differ!" = "Invalid band index!"
        ∨ ∃ a b c, "k-point of the two states differ!" = pwMsg a b c) :=
  ⟨TDM_sample_kpt_mismatch,
   tdm_error_message_kinds sampleW (1, 1, 1) (1, 2, 1) false false _
     TDM_sample_kpt_mismatch⟩

/-- Claim C2, code bug: the z=0 reconstruction loop of `wfc_r` computes
`fy` from the first loop index `ii` instead of `jj`
(`fy = ii if ii < ngrid[1] / 2 + 1 else ii - ngrid[1]`, source line 260), so
the set of filled points is wrong.  On a 3×3 plane: the point `(0,2)` has
frequencies `fx = 0, fy = -1`, is not covered by the half-space filter, and
per the claim must be filled with the conjugate of the value at its
reflection `(0,1)` (here `1`); the code leaves it at its old value `2`.
Conversely `(2,1)` has `fy = 1 > 0`, is covered and must stay `7`, but the
code overwrites it with the conjugate of the value at `(1,2)` (here `5`). -/
theorem wfc_r_gamma_fill_uses_first_index :
    gammaFillZ 3 3 planeSample 0 2 = 2 ∧
      (starRingEnd ℂ) (planeSample ((3 - 0) % 3) ((3 - 2) % 3)) = 1 ∧
      (2 : ℂ) ≠ 1 ∧
      gammaFillZ 3 3 planeSample 2 1 = 5 ∧
      planeSample 2 1 = 7 ∧ (5 : ℂ) ≠ 7 := by
  refine ⟨gammaFillZ_sample_02, ?_, by norm_num, gammaFillZ_sample_21,
          by norm_num [planeSample], by norm_num⟩
  norm_num [planeSample]

/-- Claim C3, counterexample: on a constant-one buffer the DC value after the
gamma-mode rescaling of `wfc_r` is `1`, i.e. unchanged — not `√2` times its
old value as the claim states (the source first divides everything by `√2`
and then multiplies the DC value by `√2`, a net factor of one). -/
theorem gammaScale_dc_not_sqrt2 :
    gammaScale constOne3 0 0 0 = constOne3 0 0 0 ∧
      gammaScale constOne3 0 0 0
        ≠ ((Real.sqrt 2 : ℝ) : ℂ) * constOne3 0 0 0 := by
  have h1 : gammaScale constOne3 0 0 0 = 1 := gammaScale_dc_one
  constructor
  · rw [h1]; rfl
  · rw [h1]
    intro h
    rw [show constOne3 0 0 0 = 1 from rfl, mul_one] at h
    exact sqrt2_complex_ne_one h.symm

/-- Claim C3, amended: after the two scaling statements every non-DC value of
the reciprocal buffer is its old value divided by `√2`, while the DC value
is unchanged (divided by `√2` and then multiplied by `√2`). -/
theorem gammaScale_net_scaling (phi : ℕ → ℕ → ℕ → ℂ) :
    gammaScale phi 0 0 0 = phi 0 0 0 ∧
      ∀ i j k : ℕ, ¬(i = 0 ∧ j = 0 ∧ k = 0) →
        gammaScale phi i j k = phi i j k / ((Real.sqrt 2 : ℝ) : ℂ) := by
  constructor
  · have h2 : ((Real.sqrt 2 : ℝ) : ℂ) ≠ 0 :=
      Complex.ofReal_ne_zero.mpr (ne_of_gt (Real.sqrt_pos.mpr (by norm_num)))
    simp [gammaScale, gammaDivSqrt2, div_mul_cancel₀, h2]
  · intro i j k hne
    simp [gammaScale, gammaDivSqrt2, hne]

/-- Claim C3, witness for the amended theorem at the constant-one buffer and
the off-DC point `(1,0,0)`. -/
theorem gammaScale_net_scaling_witness :
    gammaScale constOne3 0 0 0 = constOne3 0 0 0 ∧
      gammaScale constOne3 1 0 0 = constOne3 1 0 0 / ((Real.sqrt 2 : ℝ) : ℂ) :=
  ⟨(gammaScale_net_scaling constOne3).1,
   (gammaScale_net_scaling constOne3).2 1 0 0 (by norm_num)⟩

/-- Claim C4: whenever `gvectors` returns a G-vector list (for any state,
k-point and gamma flag), its length equals the plane-wave count stored in
the band table for that k-point; the only alternative is the consistency
error of its assert, so the list is never truncated or padded. -/
theorem gvectors_count_matches_band_table (st : WaveState) (ikpt : ℤ)
    (gm : Bool) (l : List (ℤ × ℤ × ℤ)) (h : gvectors st ikpt gm = .ok l) :
    (l.length : ℤ) = st.nplws (ikpt - 1).toNat := by
  simp only [gvectors] at h
  split_ifs at h with h1 h2 h3
  all_goals
    injection h with h6
    subst h6
    assumption

/-- Claim C4, witness: on the concrete sample state `gvectors` succeeds with
one G-vector, matching the stored plane-wave count `1`. -/
theorem gvectors_count_matches_band_table_witness :
    gvectors sampleW 1 false = .ok [(0, 0, 0)] ∧
      ((([((0:ℤ), (0:ℤ), (0:ℤ))] : List (ℤ × ℤ × ℤ)).length : ℤ)
        = sampleW.nplws ((1:ℤ) - 1).toNat) :=
  ⟨gvectors_sampleW,
   gvectors_count_matches_band_table sampleW 1 false _ gvectors_sampleW⟩

/-- Claim C5, counterexample: for two k-points `(0,0,0)` and `(1,0,0)` with
identity reciprocal lattice, the source's cumulative k-path is `[0, 1]`
while the claim's `2π`-scaled formula gives `[0, 2π]`; the source applies no
`2π` factor (`np.dot(np.diff(kvecs), Bcell)`, line 133). -/
theorem kpath_differs_from_tpi_scaled :
    kpathOf 2 kvPair idMat ≠ kpathClaim 2 kvPair idMat := by
  rw [kpathOf_pair, kpathClaim_pair]
  intro h
  have h2 : (1:ℝ) = TPI := by
    have h3 := Option.some.inj h
    simpa using congrArg (fun l => l.getD 1 0) h3
  exact one_lt_TPI.ne h2

/-- Claim C5, amended: for more than one k-point the band-table reader's
cumulative k-path starts at `0` and each further entry adds the Euclidean
norm of the consecutive k-vector difference transformed through the
reciprocal lattice — with no `2π` scaling. -/
theorem kpath_cumulative_without_tpi (nkpts : ℤ) (kvecs : List V3)
    (Bcell : Mat3) (h : 1 < nkpts) :
    ∃ l, kpathOf nkpts kvecs Bcell = some l ∧
      l.getD 0 0 = 0 ∧
      l.length = (vdiffs kvecs).length + 1 ∧
      ∀ i, i + 1 < kvecs.length →
        l.getD (i + 1) 0
          = l.getD i 0
            + vnorm (rowMul (vsub (kvecs.getD (i + 1) 0) (kvecs.getD i 0)) Bcell) := by
  refine ⟨0 :: cumsumFrom 0 ((vdiffs kvecs).map fun d => vnorm (rowMul d Bcell)),
          by simp [kpathOf, h], by simp, by simp [cumsumFrom_length], ?_⟩
  intro i hi
  have hlen : kvecs.length - 1 = (vdiffs kvecs).length := (vdiffs_length kvecs).symm
  have hib : i < ((vdiffs kvecs).map fun d => vnorm (rowMul d Bcell)).length := by
    rw [List.length_map, ← hlen]; omega
  have hrec := cumsum_cons_getD ((vdiffs kvecs).map fun d => vnorm (rowMul d Bcell)) 0 i hib
  rw [hrec]
  have hib2 : i < (vdiffs kvecs).length := by rw [← hlen]; omega
  have hmap : (((vdiffs kvecs).map fun d => vnorm (rowMul d Bcell)).getD i 0)
      = vnorm (rowMul ((vdiffs kvecs).getD i 0) Bcell) := by
    rw [List.getD_eq_getElem?_getD, List.getElem?_map,
        List.getElem?_eq_getElem hib2]
    simp [List.getD_eq_getElem?_getD, List.getElem?_eq_getElem hib2]
  rw [hmap, vdiffs_getD kvecs i hi]

/-- Claim C5, witness for the amended theorem at the two-k-point example. -/
theorem kpath_cumulative_without_tpi_witness :
    ∃ l, kpathOf 2 kvPair idMat = some l ∧
      l.getD 0 0 = 0 ∧
      l.length = (vdiffs kvPair).length + 1 ∧
      ∀ i, i + 1 < kvPair.length →
        l.getD (i + 1) 0
          = l.getD i 0
            + vnorm (rowMul (vsub (kvPair.getD (i + 1) 0) (kvPair.getD i 0)) idMat) :=
  kpath_cumulative_without_tpi 2 kvPair idMat (by norm_num)

/-- Claim C6, counterexample: `whereRec` is not free of error paths — it
calls `checkIndex` first, so with one spin the triple `(2, 1, 1)` is
rejected with the spin-range error instead of the record formula being
returned. -/
theorem whereRec_rejects_out_of_range :
    whereRec 1 1 2 2 1 1 = .error "Invalid spin index!" ∧
      whereRec 1 1 2 2 1 1
        ≠ .ok (2 + ((2:ℤ) - 1) * 1 * (2 + 1) + ((1:ℤ) - 1) * (2 + 1) + 1) := by
  refine ⟨rfl, ?_⟩
  rw [show whereRec 1 1 2 2 1 1 = .error "Invalid spin index!" from rfl]
  simp

/-- Claim C6, amended: on 1-based indices within range, `whereRec` returns
exactly `2 + (spin-1)·nkpts·(nbands+1) + (kpoint-1)·(nbands+1) + band`;
out-of-range indices are rejected by the `checkIndex` call it performs
first. -/
theorem whereRec_formula_on_valid_indices
    (nspin nkpts nbands ispin ikpt iband : ℤ)
    (h1 : 1 ≤ ispin) (h2 : ispin ≤ nspin) (h3 : 1 ≤ ikpt) (h4 : ikpt ≤ nkpts)
    (h5 : 1 ≤ iband) (h6 : iband ≤ nbands) :
    whereRec nspin nkpts nbands ispin ikpt iband
      = .ok (2 + (ispin - 1) * nkpts * (nbands + 1)
              + (ikpt - 1) * (nbands + 1) + iband) := by
  unfold whereRec checkIndex
  rw [if_neg (not_not_intro ⟨h1, h2⟩), if_neg (not_not_intro ⟨h3, h4⟩),
      if_neg (not_not_intro ⟨h5, h6⟩)]

/-- Claim C6, witness for the amended theorem at valid indices. -/
theorem whereRec_formula_on_valid_indices_witness :
    whereRec 1 1 2 1 1 2
      = .ok (2 + ((1:ℤ) - 1) * 1 * (2 + 1) + ((1:ℤ) - 1) * (2 + 1) + 2) :=
  whereRec_formula_on_valid_indices 1 1 2 1 1 2 (by norm_num) (by norm_num)
    (by norm_num) (by norm_num) (by norm_num) (by norm_num)

/-- Claim C7: `setWFPrec` maps tag 45200 to single-complex and 45210 to
double-complex precision, fails on the recognized-but-unsupported VASP5
tags 53300 and 53310 with their distinct "not implemented" errors, and
fails on every other tag with the "Invalid TAG values" error. -/
theorem setWFPrec_tag_mapping :
    setWFPrec 45200 = .ok .complex64 ∧
      setWFPrec 45210 = .ok .complex128 ∧
      setWFPrec 53300 = .error "VASP5 WAVECAR format, not implemented yet" ∧
      setWFPrec 53310 = .error ("VASP5 WAVECAR format with double precision "
        ++ "coefficients, not implemented yet") ∧
      ∀ t : ℤ, t ∉ ([45200, 45210, 53300, 53310] : List ℤ) →
        setWFPrec t = .error ("Invalid TAG values: " ++ toString t) :=
  ⟨rfl, rfl, rfl, rfl, fun t ht => setWFPrec_invalid_other t ht⟩

/-- Claim C7, witness: tag 0 is none of the recognized tags and is rejected
with the invalid-tag error. -/
theorem setWFPrec_tag_mapping_witness :
    (0 : ℤ) ∉ ([45200, 45210, 53300, 53310] : List ℤ) ∧
      setWFPrec 0 = .error ("Invalid TAG values: " ++ toString (0 : ℤ)) :=
  ⟨by decide, setWFPrec_tag_mapping.2.2.2.2 0 (by decide)⟩

/-- Claim C8, counterexample: in the claim's scenario (coefficients `[1]`
and `[i]` over the single G-vector `(0,0,0)` at the same k-point) the
returned overlap is `+i = conj(1)·i`, not `-i`; the dipole is the zero
vector as claimed. -/
theorem tdm_overlap_not_minus_i :
    TransitionDipoleMoment sampleW (1, 1, 1) (1, 1, 2) false false
        = .ok (1, Complex.I, (0, 0, 0)) ∧ Complex.I ≠ -Complex.I := by
  refine ⟨TDM_sample_offdiag, ?_⟩
  intro h
  have him := congrArg Complex.im h
  simp at him
  norm_num at him

/-- Claim C8, amended: for the two states with coefficients `[1]` and `[i]`
over the single G-vector `(0,0,0)` at the same k-point,
`TransitionDipoleMoment` returns overlap `+i` (which is `conj(1)·i`) and the
zero dipole vector. -/
theorem tdm_single_gvector_scenario :
    TransitionDipoleMoment sampleW (1, 1, 1) (1, 1, 2) false false
      = .ok (1, Complex.I, (0, 0, 0)) := TDM_sample_offdiag

/-- Claim C9, counterexample: on a file whose precision tag is the
unsupported `53300`, the constructor raises while parsing the header and
its file-handle trace — open, seek, read — contains no close: the handle is
left open on this exit path. -/
theorem initTrace_badTag_leaves_open :
    (initTrace badTagFile).2
        = .error "VASP5 WAVECAR format, not implemented yet" ∧
      FileOp.close ∉ (initTrace badTagFile).1 := by
  rw [initTrace_badTagFile]
  exact ⟨rfl, by decide⟩

/-- Claim C9, amended: the constructor never closes the file handle on any
path — neither on success nor on a header-parse failure; the error simply
propagates with the handle still open. -/
theorem initTrace_never_closes (f : FileModel) :
    FileOp.close ∉ (initTrace f).1 := by
  simp only [initTrace]
  cases hh : (readWFHeaderTrace f).2 with
  | error e =>
      simp only [hh]
      simp [readWFHeaderTrace_no_close f]
  | ok hd =>
      simp only [hh]
      simp [readWFBandTrace, readWFHeaderTrace_no_close f,
            bandTraceAux_no_close hd]

/-- Claim C10: when the caller supplies an explicit `gvec` array to `wfc_r`,
the value the caller's array holds after the call is the original array
with every component reduced modulo the target grid dimension (the in-place
`gvec %= ngrid` of line 252); whenever some entry is not already reduced,
the array therefore no longer holds the original G-vector triples. -/
theorem wfc_r_reduces_caller_gvec (st : WaveState) (ispin ikpt iband : ℤ)
    (g : List (ℤ × ℤ × ℤ)) (ngridArg : Option (ℕ × ℕ × ℕ)) (nr gm : Bool)
    (phi : ℕ → ℕ → ℕ → ℂ) (gout : List (ℤ × ℤ × ℤ))
    (h : wfc_r st ispin ikpt iband (some g) ngridArg nr gm = .ok (phi, gout)) :
    gout = gvecReduce (ngridArg.getD st.ngrid) g ∧
      ∀ m : ℕ, ∀ t : ℤ × ℤ × ℤ, g[m]? = some t →
        reduceTriple (ngridArg.getD st.ngrid) t ≠ t → gout ≠ g := by
  have h1 : gout = gvecReduce (ngridArg.getD st.ngrid) g := by
    simp only [wfc_r] at h
    cases hc : checkIndex st.nspin st.nkpts st.nbands ispin ikpt iband with
    | error e => simp only [hc] at h; simp at h
    | ok u =>
        simp only [hc] at h
        split_ifs at h with h2
        all_goals
          cases hr : readBandCoeff st ispin ikpt iband nr with
          | error e2 => simp only [hr] at h; simp at h
          | ok cg =>
              simp only [hr] at h
              simp at h
              exact h.2.symm
  refine ⟨h1, ?_⟩
  intro m t hm hne hEq
  apply hne
  have h2 : (gvecReduce (ngridArg.getD st.ngrid) g)[m]?
      = some (reduceTriple (ngridArg.getD st.ngrid) t) := by
    simp [gvecReduce, List.getElem?_map, hm]
  rw [← h1, hEq, hm] at h2
  exact (Option.some.inj h2).symm

/-- Claim C10, witness: passing the not-yet-reduced G-vector `(-1,0,0)` on a
1×1×1 grid, the caller's array afterwards holds `[(0,0,0)]`, which differs
from the original. -/
theorem wfc_r_reduces_caller_gvec_witness :
    wfc_r sampleW 1 1 1 (some [(-1, 0, 0)]) none false false
        = .ok (placeCoeffs [(0, 0, 0)] [1], [(0, 0, 0)]) ∧
      ([((0:ℤ), (0:ℤ), (0:ℤ))] : List (ℤ × ℤ × ℤ))
        = gvecReduce ((none : Option (ℕ × ℕ × ℕ)).getD sampleW.ngrid)
            [(-1, 0, 0)] ∧
      ([((0:ℤ), (0:ℤ), (0:ℤ))] : List (ℤ × ℤ × ℤ)) ≠ [((-1:ℤ), 0, 0)] := by
  have h := wfc_r_sample_eval
  have h2 := wfc_r_reduces_caller_gvec sampleW 1 1 1 [(-1, 0, 0)] none false
    false (placeCoeffs [(0, 0, 0)] [1]) [(0, 0, 0)] h
  exact ⟨h, h2.1, h2.2 0 (-1, 0, 0) rfl (by decide)⟩

end Vaspwfc
